import Mathlib

/-!
Verification of the conversation-memory core of the repository
(`src/memory.py`, `src/storage.py`).

The embedding below translates `ConversationMemoryManager.add_message`,
`_maybe_summarize_session`, `get_context_for_session` and
`ConversationStorage.get_recent_messages` into pure Lean functions.
External collaborators (the Qdrant client behind `store_message` /
`search_conversations`, and the summarizer agent behind `chat`) are
modelled as oracle fields whose outcome is `Except Unit α`: `Except.error ()`
models the Python call raising an exception, `Except.ok v` models it
returning `v`.  Python floats are modelled by `ℚ`; timestamps by `Nat`
(the code only renders and compares them, and `datetime.isoformat` is
injective, as is decimal rendering of `Nat`).
-/

namespace ConvMemory

/-- Count of the maximal non-whitespace runs of a character list; the
boolean says whether the previous character belonged to a word. -/
def wordCountAux : List Char → Bool → Nat
  | [], _ => 0
  | c :: cs, inWord =>
    if c.isWhitespace then wordCountAux cs false
    else (if inWord then 0 else 1) + wordCountAux cs true

/-- Number of words of a string under Python `str.split()` semantics
(split on whitespace runs, dropping empty pieces), as used by
`len(....split())`. -/
def wordCount (s : String) : Nat :=
  wordCountAux s.data false

/-- Token estimate of a turn, from `memory.py` line 145:
`len(f"{message} {response}".split()) * 1.3`. -/
def estimateTokens (message response : String) : ℚ :=
  (wordCount (message ++ " " ++ response) : ℚ) * (13 / 10)

/-- One conversation turn as kept in a hot session's `messages` list
(the dict appended at `memory.py` lines 137-142). -/
structure Turn where
  timestamp : Nat
  message : String
  response : String
  urls : List String
deriving DecidableEq, Repr

/-- Hot in-memory state of one session: the per-session dict held in
`self.active_sessions` (`memory.py` lines 128-134). -/
structure Session where
  messages : List Turn
  tokenCount : ℚ
  lastActivity : Nat
  urls : Finset String
  topics : Finset String
deriving DecidableEq

/-- Payload of one record returned by the Qdrant scroll in
`ConversationStorage.get_recent_messages` (`storage.py` lines 546-552).
A field read with `payload["k"]` raises `KeyError` when absent, which we
model with `Option`; `payload.get("urls", [])` never raises. -/
structure LedgerEntry where
  timestamp : Option Nat
  message : Option String
  response : Option String
  urls : List String
deriving DecidableEq, Repr

/-- Body of the per-entry work in the `get_recent_messages` loop:
build the message dict, or `none` when a required field is missing
(the `KeyError` case). -/
def entryToMsg (e : LedgerEntry) : Option Turn :=
  match e.timestamp, e.message, e.response with
  | some ts, some m, some r => some ⟨ts, m, r, e.urls⟩
  | _, _, _ => none

/-- The `for result in results` loop of `get_recent_messages`: the first
entry that raises a `KeyError` aborts the whole loop (the exception
propagates to the surrounding handler), so the outcome is `none` as soon
as any entry is malformed. -/
def collectMsgs : List LedgerEntry → Option (List Turn)
  | [] => some []
  | e :: es =>
    match entryToMsg e with
    | none => none
    | some m => (collectMsgs es).map (fun ms => m :: ms)

/-- Stable insertion of a turn into a list sorted by timestamp
(equal timestamps keep the earlier element first, matching the
stability of Python `list.sort`). -/
def insertByTime (m : Turn) : List Turn → List Turn
  | [] => [m]
  | x :: xs => if m.timestamp ≤ x.timestamp then m :: x :: xs else x :: insertByTime m xs

/-- Stable sort by timestamp, modelling
`messages.sort(key=lambda x: x["timestamp"])`. -/
def sortByTime : List Turn → List Turn
  | [] => []
  | x :: xs => insertByTime x (sortByTime xs)

/-- Last `n` elements of a list, modelling Python `l[-n:]`. -/
def takeLast (n : Nat) (l : List α) : List α :=
  l.drop (l.length - n)

/-- Embedding of `ConversationStorage.get_recent_messages`
(`storage.py` lines 530-561): convert every scrolled entry, sort by
timestamp, return the last `limit`; the `except` handler turns any
`KeyError` raised inside the loop (and any transport error) into an
empty result. -/
def getRecentMessages (entries : List LedgerEntry) (limit : Nat) : List Turn :=
  match collectMsgs entries with
  | some msgs => takeLast limit (sortByTime msgs)
  | none => []

/-- Modelled from the spec: the restoration behaviour the spec describes
for malformed entries (spec.md section 7, MalformedSessionState) —
individual malformed entries are skipped and the remaining valid entries
are kept.  Used only to compare against the behaviour of the source. -/
def getRecentMessagesSpec (entries : List LedgerEntry) (limit : Nat) : List Turn :=
  takeLast limit (sortByTime (entries.filterMap entryToMsg))

/-- Session dict built by the restoration branch of
`get_context_for_session` (`memory.py` lines 296-306): messages come
from the fetch, `token_count` is recomputed additively over them,
`last_activity` is the last fetched timestamp, and the `urls` / `topics`
aggregates are created empty. -/
def restoreSession (recent : List Turn) : Session :=
  { messages := recent
    tokenCount := recent.foldl (fun acc m => acc + estimateTokens m.message m.response) 0
    lastActivity := (recent.getLast?.map Turn.timestamp).getD 0
    urls := ∅
    topics := ∅ }

/-- Restoration step of `get_context_for_session` (`memory.py` lines
288-308) for one session: if hot state exists it is returned untouched
with no Ledger access; otherwise a recent window (limit 20) is fetched
and, only when it is non-empty, cached as the new hot state.  The
boolean records whether the Ledger was queried. -/
def getOrRestore (entries : List LedgerEntry) (s : Option Session) :
    Option Session × Bool :=
  match s with
  | some sess => (some sess, false)
  | none =>
    let recent := getRecentMessages entries 20
    if recent.isEmpty then (none, true) else (some (restoreSession recent), true)

/-- One hit returned by `ConversationStorage.search_conversations`
(`storage.py` lines 517-528). -/
structure SearchResult where
  id : String
  score : ℚ
  message : String
  response : String
  timestamp : Nat
  urls : List String
deriving DecidableEq, Repr

/-- The Ledger as seen by one session of the memory manager: the records
its scroll returns during restoration, and the outcome of the semantic
search `search_memory` performs for a given query (an exception from the
Qdrant client is `Except.error ()`). -/
structure Ledger where
  entries : List LedgerEntry
  search : String → Except Unit (List SearchResult)

/-- Outcomes of the external calls one `add_message` invocation can make:
the durable write of the turn (`conversation_storage.store_message`), the
summarizer (`self.summarizer`, which is `None` when `_init_summarizer`
failed, and whose `chat` takes the prompt), and the durable write of the
summary record. -/
structure Oracles where
  storeTurn : Except Unit String
  summarizer : Option (String → Except Unit String)
  storeSummary : Except Unit String

/-- Constructor parameters of `ConversationMemoryManager` that the
verified operations read. -/
structure Config where
  maxContextTokens : ℚ
  summarizationThreshold : ℚ
  compressionRatio : ℚ

/-- Summary record built during `_maybe_summarize_session` (`memory.py`
lines 195-206).  The `topics` field is omitted: it is computed as
`list(set(...))[:10]`, whose order depends on Python string-hash
randomisation, and no verified property mentions it.  `key_information`
is the same string as `summary_text`. -/
structure Summary where
  sessionId : String
  startTime : Nat
  endTime : Nat
  messageCount : Nat
  urlsMentioned : List String
  summaryText : String
  originalTokenCount : Int
  compressedTokenCount : Nat
deriving DecidableEq, Repr

/-- Python `int()` applied to a rational: truncation toward zero. -/
def pyInt (q : ℚ) : Int :=
  Int.tdiv q.num q.den

/-- Chronological transcript of the batch to summarize (`memory.py`
lines 172-176); the timestamp rendering `strftime` is modelled by the
decimal rendering of the `Nat` timestamp. -/
def transcript (batch : List Turn) : String :=
  String.intercalate "\n"
    (batch.map (fun m =>
      "[" ++ toString m.timestamp ++ "] User: " ++ m.message ++ "\n[" ++
        toString m.timestamp ++ "] Assistant: " ++ m.response))

/-- Prompt handed to the summarizer (`memory.py` lines 179-190). -/
def summaryPrompt (conversationText : String) : String :=
  "Summarize this conversation segment, preserving key information:\n\n" ++
    conversationText ++
    "\n\nExtract:\n1. Main topics discussed\n2. Important decisions or conclusions\n" ++
    "3. URLs or resources mentioned\n4. Key facts or data points\n" ++
    "5. Action items or next steps\n\nProvide a structured summary that maintains searchable context."

/-- Body of the `try` block of `_maybe_summarize_session` (`memory.py`
lines 167-226): select the oldest half as the batch, call the summarizer
on the rendered transcript, build the summary record (raising
`IndexError` on an empty batch, modelled by the `none` cases of
`head?`/`getLast?`), persist it, and only then mutate the hot state.
`none` models an exception escaping to the handler at line 228, which
only logs: nothing was persisted and the hot state was not touched,
because both fallible calls precede the mutation. -/
def compactionAttempt (chat : String → Except Unit String)
    (storeSummary : Except Unit String) (sessionId : String) (sess : Session) :
    Option (Session × Summary) :=
  let batch := sess.messages.take (sess.messages.length / 2)
  match chat (summaryPrompt (transcript batch)) with
  | Except.error _ => none
  | Except.ok summaryText =>
    match batch.head?, batch.getLast? with
    | some b0, some bl =>
      let summary : Summary :=
        { sessionId := sessionId
          startTime := b0.timestamp
          endTime := bl.timestamp
          messageCount := batch.length
          urlsMentioned := ((batch.map Turn.urls).flatten).dedup
          summaryText := summaryText
          originalTokenCount := pyInt (sess.tokenCount * (1 / 2))
          compressedTokenCount := wordCount summaryText }
      match storeSummary with
      | Except.error _ => none
      | Except.ok _ =>
        some ({ sess with
                  messages := sess.messages.drop batch.length
                  tokenCount := sess.tokenCount * (1 / 2) },
              summary)
    | _, _ => none

/-- Embedding of `_maybe_summarize_session` (`memory.py` lines 158-229)
acting on the hot state of the named session: no-op when the summarizer
is `None`, when the session is unknown, or when it holds fewer than 5
messages; otherwise run the compaction attempt, whose failure leaves the
state untouched.  The returned list holds the summary records persisted
to the Ledger by this call. -/
def maybeSummarizeSession (orc : Oracles) (sessionId : String) (s : Option Session) :
    Option Session × List Summary :=
  match orc.summarizer with
  | none => (s, [])
  | some chat =>
    match s with
    | none => (s, [])
    | some sess =>
      if sess.messages.length < 5 then (s, [])
      else
        match compactionAttempt chat orc.storeSummary sessionId sess with
        | none => (s, [])
        | some (sess2, summary) => (some sess2, [summary])

/-- Fresh session dict created on first touch (`memory.py` lines
128-134). -/
def freshSession (timestamp : Nat) : Session :=
  { messages := [], tokenCount := 0, lastActivity := timestamp, urls := ∅, topics := ∅ }

/-- Hot-state mutation performed by `add_message` after the durable
write succeeded (`memory.py` lines 127-150): create the session if
absent, append the turn, add the token estimate, bump `last_activity`,
and union the urls (only when the argument list is non-empty, matching
`if urls:`). -/
def appendTurn (s : Option Session) (message response : String) (urls : List String)
    (timestamp : Nat) : Session :=
  let sess := s.getD (freshSession timestamp)
  { sess with
      messages := sess.messages ++ [⟨timestamp, message, response, urls⟩]
      tokenCount := sess.tokenCount + estimateTokens message response
      lastActivity := timestamp
      urls := if urls.isEmpty then sess.urls else sess.urls ∪ urls.toFinset }

/-- Embedding of `add_message` (`memory.py` lines 107-156) acting on the
hot state of one session.  The durable write runs first; if it raises,
the exception propagates and none of the hot-state mutation below it
runs.  On success the hot state is updated and, when the new token count
exceeds the threshold, `_maybe_summarize_session` runs synchronously.
Returns the call outcome (the Ledger-assigned point id), the new hot
state, and the summary records persisted during the call. -/
def addMessage (cfg : Config) (orc : Oracles) (sessionId : String) (s : Option Session)
    (message response : String) (urls : List String) (timestamp : Nat) :
    Except Unit String × Option Session × List Summary :=
  match orc.storeTurn with
  | Except.error e => (Except.error e, s, [])
  | Except.ok pointId =>
    let sess := appendTurn s message response urls timestamp
    if sess.tokenCount > cfg.summarizationThreshold then
      let r := maybeSummarizeSession orc sessionId (some sess)
      (Except.ok pointId, r.1, r.2)
    else
      (Except.ok pointId, some sess, [])

/-- Two rendered lines of one turn in an assembled context. -/
def turnLines (m : Turn) : List String :=
  ["User: " ++ m.message, "Assistant: " ++ m.response]

/-- The `"\n\n".join(context_parts)` of `get_context_for_session`. -/
def renderContext (parts : List String) : String :=
  String.intercalate "\n\n" parts

/-- Fragment lines kept on the expensive path (`memory.py` lines
337-340): a search hit is skipped only when its id equals
`f"{session_id}_{timestamp-of-most-recent-turn}"`. -/
def earlierLines (sessionId : String) (lastTs : Nat) (results : List SearchResult) :
    List String :=
  ((results.filter (fun r => r.id ≠ sessionId ++ "_" ++ toString lastTs)).map
    (fun r => ["[Earlier] User: " ++ r.message, "[Earlier] Assistant: " ++ r.response])).flatten

/-- Embedding of `get_context_for_session` (`memory.py` lines 281-349)
for one session.  Steps: restore if the session is not hot (never
raising — `get_recent_messages` catches its own errors); return `""`
when still absent; cheap path when the token count fits the budget;
otherwise query the Ledger search with the most recent user message —
an exception from that call propagates to the caller (the call at line
327 is outside any `try`).  Returns the outcome, the hot state after the
call, and whether the Ledger was queried for restoration.  The
`max_tokens` argument (defaulted from the configured
`max_context_tokens` by the `max_tokens or self.max_context_tokens`
line) is taken here already resolved. -/
def getContextForSession (L : Ledger) (sessionId : String)
    (s : Option Session) (maxTokens : ℚ) :
    Except Unit String × Option Session × Bool :=
  let r := getOrRestore L.entries s
  match r.1 with
  | none => (Except.ok "", none, r.2)
  | some sess =>
    if sess.tokenCount ≤ maxTokens then
      (Except.ok (renderContext ((takeLast 10 sess.messages).map turnLines).flatten),
       some sess, r.2)
    else
      match sess.messages.getLast? with
      | none => (Except.ok "", some sess, r.2)
      | some last =>
        match L.search last.message with
        | Except.error e => (Except.error e, some sess, r.2)
        | Except.ok results =>
          (Except.ok (renderContext
              (earlierLines sessionId last.timestamp results ++
               ((takeLast 3 sess.messages).map turnLines).flatten)),
           some sess, r.2)

/-- Failure modes of one compaction attempt: the summarizer (when
present) raises on every prompt, or the durable summary write raises.
These are the two fallible steps of `_maybe_summarize_session` between
its guards and its hot-state mutation. -/
def summarizeAttemptFails (orc : Oracles) : Prop :=
  (∀ chat, orc.summarizer = some chat → ∀ p, chat p = Except.error ()) ∨
    orc.storeSummary = Except.error ()

/-- Oracles for the C1 scenario: all external calls succeed. -/
def c1CexOrc : Oracles :=
  ⟨Except.ok "pid1", some (fun _ => Except.ok "ok summary"), Except.ok "sumid"⟩

/-- Hot state for the C1 scenario: four turns of two words each
(estimate 13/5 per turn, total 52/5), one short of the minimum batch. -/
def c1CexSession : Session :=
  ⟨[⟨1, "hi", "yo", []⟩, ⟨2, "hi", "yo", []⟩, ⟨3, "hi", "yo", []⟩, ⟨4, "hi", "yo", []⟩],
   52 / 5, 4, ∅, ∅⟩

/-- The C1 scenario run: a fifth `add_message` with
`summarization_threshold = 10` and configured `compression_ratio = 3/10`.
The appended state has token count 13 > 10 and 5 messages, so compaction
triggers. -/
def c1CexResult : Except Unit String × Option Session × List Summary :=
  addMessage ⟨4000, 10, 3 / 10⟩ c1CexOrc "s1" (some c1CexSession) "hi" "yo" [] 5

theorem collectMsgs_eq_none (entries : List LedgerEntry)
    (h : ∃ e ∈ entries, entryToMsg e = none) : collectMsgs entries = none := by
  induction entries with
  | nil => simp at h
  | cons e es ih =>
    rcases h with ⟨x, hx, hxm⟩
    rcases List.mem_cons.mp hx with h1 | h2
    · subst h1
      unfold collectMsgs
      rw [hxm]
    · unfold collectMsgs
      rcases he : entryToMsg e with _ | m
      · rfl
      · rw [ih ⟨x, h2, hxm⟩]
        rfl

theorem compactionAttempt_fail (chat : String → Except Unit String)
    (storeSummary : Except Unit String) (sid : String) (sess : Session)
    (h : (∀ p, chat p = Except.error ()) ∨ storeSummary = Except.error ()) :
    compactionAttempt chat storeSummary sid sess = none := by
  unfold compactionAttempt
  rcases h with hchat | hstore
  · simp [hchat]
  · rcases hc : chat (summaryPrompt (transcript (sess.messages.take (sess.messages.length / 2)))) with
      e | txt
    · simp [hc]
    · rcases hh : (sess.messages.take (sess.messages.length / 2)).head? with _ | b0 <;>
        rcases hl : (sess.messages.take (sess.messages.length / 2)).getLast? with _ | bl <;>
        simp [hc, hh, hl, hstore]

theorem maybeSummarize_fail (orc : Oracles) (sid : String) (s : Option Session)
    (h : summarizeAttemptFails orc) :
    maybeSummarizeSession orc sid s = (s, []) := by
  unfold maybeSummarizeSession
  rcases horc : orc.summarizer with _ | chat
  · rfl
  · rcases s with _ | sess
    · rfl
    · by_cases hlen : sess.messages.length < 5
      · simp [hlen]
      · have hfail : (∀ p, chat p = Except.error ()) ∨ orc.storeSummary = Except.error () := by
          rcases h with hchat | hstore
          · exact Or.inl (hchat chat horc)
          · exact Or.inr hstore
        simp [hlen, compactionAttempt_fail chat orc.storeSummary sid sess hfail]

theorem maybeSummarize_no_summarizer (orc : Oracles) (sid : String) (s : Option Session)
    (h : orc.summarizer = none) : maybeSummarizeSession orc sid s = (s, []) := by
  unfold maybeSummarizeSession
  rw [h]

theorem batch_head_getLast (l : List Turn) (hn : 5 ≤ l.length) :
    ∃ b0 bl, (l.take (l.length / 2)).head? = some b0 ∧
      (l.take (l.length / 2)).getLast? = some bl := by
  have hpos : 0 < (l.take (l.length / 2)).length := by
    rw [List.length_take]
    omega
  rcases he : l.take (l.length / 2) with _ | ⟨a, as⟩
  · rw [he] at hpos
    simp at hpos
  · exact ⟨a, (a :: as).getLast (by simp), rfl, List.getLast?_eq_getLast _ (by simp)⟩

theorem compactionAttempt_ok (chat : String → Except Unit String)
    (storeSummary : Except Unit String) (sid : String) (sess : Session)
    (txt sumId : String) (b0 bl : Turn)
    (hn : 5 ≤ sess.messages.length)
    (hchat : chat (summaryPrompt (transcript (sess.messages.take (sess.messages.length / 2)))) =
      Except.ok txt)
    (hh : (sess.messages.take (sess.messages.length / 2)).head? = some b0)
    (hl : (sess.messages.take (sess.messages.length / 2)).getLast? = some bl)
    (hst : storeSummary = Except.ok sumId) :
    compactionAttempt chat storeSummary sid sess =
      some ({ sess with
                messages := sess.messages.drop (sess.messages.length / 2)
                tokenCount := sess.tokenCount * (1 / 2) },
            { sessionId := sid
              startTime := b0.timestamp
              endTime := bl.timestamp
              messageCount := sess.messages.length / 2
              urlsMentioned :=
                ((sess.messages.take (sess.messages.length / 2)).map Turn.urls).flatten.dedup
              summaryText := txt
              originalTokenCount := pyInt (sess.tokenCount * (1 / 2))
              compressedTokenCount := wordCount txt }) := by
  have hbl : (sess.messages.take (sess.messages.length / 2)).length = sess.messages.length / 2 := by
    rw [List.length_take]
    omega
  unfold compactionAttempt
  simp only [hchat, hh, hl, hst, hbl]

theorem maybeSummarize_ok (orc : Oracles) (sid : String) (sess : Session)
    (chat : String → Except Unit String) (txt sumId : String)
    (hsum : orc.summarizer = some chat)
    (hn : 5 ≤ sess.messages.length)
    (hchat : chat (summaryPrompt (transcript (sess.messages.take (sess.messages.length / 2)))) =
      Except.ok txt)
    (hst : orc.storeSummary = Except.ok sumId) :
    ∃ b0 bl,
      (sess.messages.take (sess.messages.length / 2)).head? = some b0 ∧
      (sess.messages.take (sess.messages.length / 2)).getLast? = some bl ∧
      maybeSummarizeSession orc sid (some sess) =
        (some { sess with
                  messages := sess.messages.drop (sess.messages.length / 2)
                  tokenCount := sess.tokenCount * (1 / 2) },
         [{ sessionId := sid
            startTime := b0.timestamp
            endTime := bl.timestamp
            messageCount := sess.messages.length / 2
            urlsMentioned :=
              ((sess.messages.take (sess.messages.length / 2)).map Turn.urls).flatten.dedup
            summaryText := txt
            originalTokenCount := pyInt (sess.tokenCount * (1 / 2))
            compressedTokenCount := wordCount txt }]) := by
  obtain ⟨b0, bl, hh, hl⟩ := batch_head_getLast sess.messages hn
  refine ⟨b0, bl, hh, hl, ?_⟩
  unfold maybeSummarizeSession
  rw [hsum]
  have hlen : ¬ sess.messages.length < 5 := by omega
  simp only [hlen, if_false]
  rw [compactionAttempt_ok chat orc.storeSummary sid sess txt sumId b0 bl hn hchat hh hl hst]

theorem addMessage_ok_shape (cfg : Config) (orc : Oracles) (sid : String)
    (s : Option Session) (message response : String) (urls : List String) (ts : Nat)
    (pid : String) (hstore : orc.storeTurn = Except.ok pid)
    (hms : ∀ s2, maybeSummarizeSession orc sid s2 = (s2, [])) :
    addMessage cfg orc sid s message response urls ts =
      (Except.ok pid, some (appendTurn s message response urls ts), []) := by
  unfold addMessage
  rw [hstore]
  by_cases hthr : (appendTurn s message response urls ts).tokenCount > cfg.summarizationThreshold
  · simp only [hthr, if_true, hms]
  · simp only [hthr, if_false]

theorem appendTurn_messages (s : Option Session) (message response : String)
    (urls : List String) (ts : Nat) :
    (appendTurn s message response urls ts).messages =
      ((s.map Session.messages).getD []) ++ [⟨ts, message, response, urls⟩] := by
  rcases s with _ | sess <;> simp [appendTurn, freshSession]

theorem appendTurn_tokenCount (s : Option Session) (message response : String)
    (urls : List String) (ts : Nat) :
    (appendTurn s message response urls ts).tokenCount =
      ((s.map Session.tokenCount).getD 0) + estimateTokens message response := by
  rcases s with _ | sess <;> simp [appendTurn, freshSession]

/-- Claim C1, counterexample: with configured `compression_ratio = 3/10`
and `summarization_threshold = 10`, the fifth `add_message` (token count
13 > 10, five messages present) triggers exactly one compaction that
drops 2 = floor(5/2) turns — but the resulting token estimate is
13 * (1/2) = 13/2, not 13 * (3/10): the code multiplies by the literal
`0.5` at `memory.py` line 224 and never reads `self.compression_ratio`,
so the claim that the configured ratio is applied is false. -/
theorem c1_compression_ratio_counterexample :
    (appendTurn (some c1CexSession) "hi" "yo" [] 5).tokenCount = 13 ∧
    c1CexResult.2.2.length = 1 ∧
    c1CexResult.2.1.map (fun s => s.messages.length) = some 3 ∧
    c1CexResult.2.1.map Session.tokenCount = some (13 / 2) ∧
    (13 / 2 : ℚ) ≠ 13 * (3 / 10) := by
  have hw : estimateTokens "hi" "yo" = 13 / 5 := by
    have hw2 : wordCount ("hi" ++ " " ++ "yo") = 2 := rfl
    rw [estimateTokens, hw2]
    norm_num
  have happ : appendTurn (some c1CexSession) "hi" "yo" [] 5 =
      ⟨[⟨1, "hi", "yo", []⟩, ⟨2, "hi", "yo", []⟩, ⟨3, "hi", "yo", []⟩, ⟨4, "hi", "yo", []⟩,
        ⟨5, "hi", "yo", []⟩], 13, 5, ∅, ∅⟩ := by
    rw [appendTurn]
    simp [c1CexSession, hw]
    norm_num
  have hgt : ((13 : ℚ) > 10) := by norm_num
  refine ⟨by rw [happ], ?_⟩
  simp only [c1CexResult, addMessage, c1CexOrc, happ, hgt, if_true]
  simp only [maybeSummarizeSession, compactionAttempt]
  norm_num

/-- Claim C1 (amended): whenever an `add_message` leaves the session
above the summarization threshold with at least 5 messages and the
summarizer and summary write succeed, exactly one compaction runs; it
removes exactly floor(n/2) of the oldest turns (n = hot length before
compaction) and multiplies `token_count` by the fixed factor 1/2 — not
by the configured `compression_ratio`, which the compaction code never
reads. -/
theorem c1_compaction_removes_half (cfg : Config) (orc : Oracles) (sid : String)
    (s : Option Session) (message response : String) (urls : List String) (ts : Nat)
    (pid txt sumId : String) (chat : String → Except Unit String) (s1 : Session)
    (hs1 : appendTurn s message response urls ts = s1)
    (hstore : orc.storeTurn = Except.ok pid)
    (hsum : orc.summarizer = some chat)
    (hthr : s1.tokenCount > cfg.summarizationThreshold)
    (hn : 5 ≤ s1.messages.length)
    (hchat : chat (summaryPrompt (transcript (s1.messages.take (s1.messages.length / 2)))) =
      Except.ok txt)
    (hst : orc.storeSummary = Except.ok sumId) :
    ∃ s2 sum,
      addMessage cfg orc sid s message response urls ts = (Except.ok pid, some s2, [sum]) ∧
      s1.messages.take (s1.messages.length / 2) ++ s2.messages = s1.messages ∧
      s2.messages.length = s1.messages.length - s1.messages.length / 2 ∧
      s2.tokenCount = s1.tokenCount * (1 / 2) := by
  obtain ⟨b0, bl, hh, hl, hms⟩ := maybeSummarize_ok orc sid s1 chat txt sumId hsum hn hchat hst
  refine ⟨{ s1 with
              messages := s1.messages.drop (s1.messages.length / 2)
              tokenCount := s1.tokenCount * (1 / 2) },
          { sessionId := sid
            startTime := b0.timestamp
            endTime := bl.timestamp
            messageCount := s1.messages.length / 2
            urlsMentioned := ((s1.messages.take (s1.messages.length / 2)).map Turn.urls).flatten.dedup
            summaryText := txt
            originalTokenCount := pyInt (s1.tokenCount * (1 / 2))
            compressedTokenCount := wordCount txt },
          ?_, ?_, ?_, ?_⟩
  · unfold addMessage
    rw [hstore]
    simp only [hs1, hthr, if_true]
    rw [hms]
  · exact List.take_append_drop (s1.messages.length / 2) s1.messages
  · simp [List.length_drop]
  · rfl

/-- Claim C1, witness: the amended theorem applied to the concrete C1
scenario (threshold 10, five two-word turns). -/
theorem c1_compaction_removes_half_witness :
    ∃ s2 sum,
      addMessage ⟨4000, 10, 3 / 10⟩ c1CexOrc "s1" (some c1CexSession) "hi" "yo" [] 5 =
        (Except.ok "pid1", some s2, [sum]) ∧
      (([⟨1, "hi", "yo", []⟩, ⟨2, "hi", "yo", []⟩, ⟨3, "hi", "yo", []⟩, ⟨4, "hi", "yo", []⟩,
         ⟨5, "hi", "yo", []⟩] : List Turn).take 2) ++ s2.messages =
        [⟨1, "hi", "yo", []⟩, ⟨2, "hi", "yo", []⟩, ⟨3, "hi", "yo", []⟩, ⟨4, "hi", "yo", []⟩,
         ⟨5, "hi", "yo", []⟩] ∧
      s2.messages.length = 3 ∧
      s2.tokenCount = (13 : ℚ) * (1 / 2) := by
  have hw : estimateTokens "hi" "yo" = 13 / 5 := by
    have hw2 : wordCount ("hi" ++ " " ++ "yo") = 2 := rfl
    rw [estimateTokens, hw2]
    norm_num
  have happ : appendTurn (some c1CexSession) "hi" "yo" [] 5 =
      ⟨[⟨1, "hi", "yo", []⟩, ⟨2, "hi", "yo", []⟩, ⟨3, "hi", "yo", []⟩, ⟨4, "hi", "yo", []⟩,
        ⟨5, "hi", "yo", []⟩], 13, 5, ∅, ∅⟩ := by
    rw [appendTurn]
    simp [c1CexSession, hw]
    norm_num
  exact c1_compaction_removes_half ⟨4000, 10, 3 / 10⟩ c1CexOrc "s1" (some c1CexSession)
    "hi" "yo" [] 5 "pid1" "ok summary" "sumid" (fun _ => Except.ok "ok summary")
    ⟨[⟨1, "hi", "yo", []⟩, ⟨2, "hi", "yo", []⟩, ⟨3, "hi", "yo", []⟩, ⟨4, "hi", "yo", []⟩,
      ⟨5, "hi", "yo", []⟩], 13, 5, ∅, ∅⟩
    happ rfl rfl (by norm_num) (by norm_num) rfl rfl

/-- Claim C2: if the durable write of the turn fails, `add_message`
surfaces the error to its caller and performs no hot-state mutation —
the session (turn list, token estimate, last activity, urls) is exactly
as before and nothing is persisted by this call: the `await` of
`store_message` at `memory.py` line 117 precedes every mutation, so the
exception propagates before any of them runs. -/
theorem c2_ledger_failure_all_or_nothing (cfg : Config) (orc : Oracles) (sid : String)
    (s : Option Session) (message response : String) (urls : List String) (ts : Nat)
    (h : orc.storeTurn = Except.error ()) :
    addMessage cfg orc sid s message response urls ts = (Except.error (), s, []) := by
  unfold addMessage
  rw [h]

/-- Claim C2, witness: a failing Ledger leaves a concrete hot session
untouched and fails the call. -/
theorem c2_ledger_failure_all_or_nothing_witness :
    addMessage ⟨4000, 2000, 3 / 10⟩ ⟨Except.error (), none, Except.error ()⟩ "s1"
        (some ⟨[⟨1, "a", "b", []⟩], 13 / 5, 1, ∅, ∅⟩) "m" "r" [] 2 =
      (Except.error (), some ⟨[⟨1, "a", "b", []⟩], 13 / 5, 1, ∅, ∅⟩, []) :=
  c2_ledger_failure_all_or_nothing ⟨4000, 2000, 3 / 10⟩
    ⟨Except.error (), none, Except.error ()⟩ "s1"
    (some ⟨[⟨1, "a", "b", []⟩], 13 / 5, 1, ∅, ∅⟩) "m" "r" [] 2 rfl

/-- Claim C3: when the summarizer call or the summary write fails, the
compaction attempt leaves the hot state exactly as the current
`add_message` built it (no partial removal, no token-count scaling), no
summary is persisted, and the failure is not raised: `add_message` still
returns the Ledger id and the turn count grows by exactly one. -/
theorem c3_compaction_failure_isolated (cfg : Config) (orc : Oracles) (sid : String)
    (s : Option Session) (message response : String) (urls : List String) (ts : Nat)
    (pid : String)
    (hstore : orc.storeTurn = Except.ok pid)
    (hfail : summarizeAttemptFails orc) :
    addMessage cfg orc sid s message response urls ts =
      (Except.ok pid, some (appendTurn s message response urls ts), []) ∧
    (appendTurn s message response urls ts).messages.length =
      ((s.map Session.messages).getD []).length + 1 ∧
    (appendTurn s message response urls ts).tokenCount =
      ((s.map Session.tokenCount).getD 0) + estimateTokens message response := by
  refine ⟨?_, ?_, appendTurn_tokenCount s message response urls ts⟩
  · exact addMessage_ok_shape cfg orc sid s message response urls ts pid hstore
      (fun s2 => maybeSummarize_fail orc sid s2 hfail)
  · rw [appendTurn_messages]
    simp

/-- Claim C3, witness: an always-failing summarizer over a session that
is far above the threshold with 5 messages — the attempt is made and
isolated, the turn still lands. -/
theorem c3_compaction_failure_isolated_witness :
    addMessage ⟨4000, 10, 3 / 10⟩ ⟨Except.ok "pid9", some (fun _ => Except.error ()),
        Except.ok "x"⟩ "s1"
        (some ⟨[⟨1, "a", "b", []⟩, ⟨2, "a", "b", []⟩, ⟨3, "a", "b", []⟩, ⟨4, "a", "b", []⟩,
                ⟨5, "a", "b", []⟩], 1000, 5, ∅, ∅⟩) "m" "r" [] 6 =
      (Except.ok "pid9",
       some (appendTurn (some ⟨[⟨1, "a", "b", []⟩, ⟨2, "a", "b", []⟩, ⟨3, "a", "b", []⟩,
               ⟨4, "a", "b", []⟩, ⟨5, "a", "b", []⟩], 1000, 5, ∅, ∅⟩) "m" "r" [] 6), []) ∧
    (appendTurn (some ⟨[⟨1, "a", "b", []⟩, ⟨2, "a", "b", []⟩, ⟨3, "a", "b", []⟩,
        ⟨4, "a", "b", []⟩, ⟨5, "a", "b", []⟩], 1000, 5, ∅, ∅⟩) "m" "r" [] 6).messages.length =
      5 + 1 ∧
    (appendTurn (some ⟨[⟨1, "a", "b", []⟩, ⟨2, "a", "b", []⟩, ⟨3, "a", "b", []⟩,
        ⟨4, "a", "b", []⟩, ⟨5, "a", "b", []⟩], 1000, 5, ∅, ∅⟩) "m" "r" [] 6).tokenCount =
      1000 + estimateTokens "m" "r" :=
  c3_compaction_failure_isolated ⟨4000, 10, 3 / 10⟩
    ⟨Except.ok "pid9", some (fun _ => Except.error ()), Except.ok "x"⟩ "s1"
    (some ⟨[⟨1, "a", "b", []⟩, ⟨2, "a", "b", []⟩, ⟨3, "a", "b", []⟩, ⟨4, "a", "b", []⟩,
            ⟨5, "a", "b", []⟩], 1000, 5, ∅, ∅⟩) "m" "r" [] 6 "pid9" rfl
    (Or.inl (by
      intro chat h p
      cases h
      rfl))

/-- Claim C9: when the summarizer failed to initialise (`self.summarizer`
is `None`), no compaction is ever attempted regardless of how far the
token estimate exceeds the threshold or how many turns are hot:
`add_message` still succeeds with the Ledger id, the turn is appended,
and the token estimate keeps growing additively. -/
theorem c9_missing_summarizer_skips_compaction (cfg : Config) (orc : Oracles) (sid : String)
    (s : Option Session) (message response : String) (urls : List String) (ts : Nat)
    (pid : String)
    (hsum : orc.summarizer = none)
    (hstore : orc.storeTurn = Except.ok pid) :
    addMessage cfg orc sid s message response urls ts =
      (Except.ok pid, some (appendTurn s message response urls ts), []) ∧
    (appendTurn s message response urls ts).messages =
      ((s.map Session.messages).getD []) ++ [⟨ts, message, response, urls⟩] ∧
    (appendTurn s message response urls ts).tokenCount =
      ((s.map Session.tokenCount).getD 0) + estimateTokens message response :=
  ⟨addMessage_ok_shape cfg orc sid s message response urls ts pid hstore
      (fun s2 => maybeSummarize_no_summarizer orc sid s2 hsum),
   appendTurn_messages s message response urls ts,
   appendTurn_tokenCount s message response urls ts⟩

/-- Claim C9, witness: a `None` summarizer with a session already far
over the threshold (token count 1000 against threshold 10, six turns):
the turn is appended with no compaction. -/
theorem c9_missing_summarizer_skips_compaction_witness :
    addMessage ⟨4000, 10, 3 / 10⟩ ⟨Except.ok "pid7", none, Except.ok "y"⟩ "s1"
        (some ⟨[⟨1, "a", "b", []⟩, ⟨2, "a", "b", []⟩, ⟨3, "a", "b", []⟩, ⟨4, "a", "b", []⟩,
                ⟨5, "a", "b", []⟩, ⟨6, "a", "b", []⟩], 1000, 6, ∅, ∅⟩) "m" "r" [] 7 =
      (Except.ok "pid7",
       some (appendTurn (some ⟨[⟨1, "a", "b", []⟩, ⟨2, "a", "b", []⟩, ⟨3, "a", "b", []⟩,
               ⟨4, "a", "b", []⟩, ⟨5, "a", "b", []⟩, ⟨6, "a", "b", []⟩], 1000, 6, ∅, ∅⟩)
               "m" "r" [] 7), []) ∧
    (appendTurn (some ⟨[⟨1, "a", "b", []⟩, ⟨2, "a", "b", []⟩, ⟨3, "a", "b", []⟩,
        ⟨4, "a", "b", []⟩, ⟨5, "a", "b", []⟩, ⟨6, "a", "b", []⟩], 1000, 6, ∅, ∅⟩)
        "m" "r" [] 7).messages =
      [⟨1, "a", "b", []⟩, ⟨2, "a", "b", []⟩, ⟨3, "a", "b", []⟩, ⟨4, "a", "b", []⟩,
       ⟨5, "a", "b", []⟩, ⟨6, "a", "b", []⟩] ++ [⟨7, "m", "r", []⟩] ∧
    (appendTurn (some ⟨[⟨1, "a", "b", []⟩, ⟨2, "a", "b", []⟩, ⟨3, "a", "b", []⟩,
        ⟨4, "a", "b", []⟩, ⟨5, "a", "b", []⟩, ⟨6, "a", "b", []⟩], 1000, 6, ∅, ∅⟩)
        "m" "r" [] 7).tokenCount =
      1000 + estimateTokens "m" "r" :=
  c9_missing_summarizer_skips_compaction ⟨4000, 10, 3 / 10⟩
    ⟨Except.ok "pid7", none, Except.ok "y"⟩ "s1"
    (some ⟨[⟨1, "a", "b", []⟩, ⟨2, "a", "b", []⟩, ⟨3, "a", "b", []⟩, ⟨4, "a", "b", []⟩,
            ⟨5, "a", "b", []⟩, ⟨6, "a", "b", []⟩], 1000, 6, ∅, ∅⟩) "m" "r" [] 7 "pid7" rfl rfl

/-- Claim C4, counterexample: a hot session over the budget (token count
100 > 10) whose Ledger search raises: `get_context_for_session`
propagates the error instead of falling back to recent turns — the
`search_memory` await at `memory.py` line 327 sits outside any `try`. -/
theorem c4_search_failure_counterexample :
    (getContextForSession ⟨[], fun _ => Except.error ()⟩ "s1"
        (some ⟨[⟨1, "a", "b", []⟩], 100, 1, ∅, ∅⟩) 10).1 = Except.error () := by
  have h : ¬ ((100 : ℚ) ≤ 10) := by norm_num
  simp only [getContextForSession, getOrRestore, h, if_false]
  rfl

/-- Claim C4 (amended): on the expensive path, a search that returns no
results degrades gracefully — `get_context_for_session` returns just the
last 3 turns without raising; but a search call that fails propagates
its error to the caller instead of falling back. -/
theorem c4_search_degrade_amended (L : Ledger) (sid : String) (sess : Session)
    (maxTokens : ℚ) (last : Turn)
    (hover : ¬ sess.tokenCount ≤ maxTokens)
    (hlast : sess.messages.getLast? = some last) :
    (L.search last.message = Except.ok [] →
      getContextForSession L sid (some sess) maxTokens =
        (Except.ok (renderContext ((takeLast 3 sess.messages).map turnLines).flatten),
         some sess, false)) ∧
    (L.search last.message = Except.error () →
      getContextForSession L sid (some sess) maxTokens =
        (Except.error (), some sess, false)) := by
  constructor <;> intro h <;>
    simp only [getContextForSession, getOrRestore, hover, if_false, hlast, h, earlierLines,
      List.filter_nil, List.map_nil, List.flatten_nil, List.nil_append]

/-- Claim C4, witness: the amended theorem at a concrete over-budget
session whose search returns no results. -/
theorem c4_search_degrade_amended_witness :
    ((Ledger.search ⟨[], fun _ => Except.ok []⟩ (Turn.message ⟨2, "c", "d", []⟩) =
        Except.ok [] →
      getContextForSession ⟨[], fun _ => Except.ok []⟩ "s1"
          (some ⟨[⟨1, "a", "b", []⟩, ⟨2, "c", "d", []⟩], 100, 2, ∅, ∅⟩) 10 =
        (Except.ok (renderContext
            ((takeLast 3 (Session.messages ⟨[⟨1, "a", "b", []⟩, ⟨2, "c", "d", []⟩],
                100, 2, ∅, ∅⟩)).map turnLines).flatten),
         some ⟨[⟨1, "a", "b", []⟩, ⟨2, "c", "d", []⟩], 100, 2, ∅, ∅⟩, false)) ∧
     (Ledger.search ⟨[], fun _ => Except.ok []⟩ (Turn.message ⟨2, "c", "d", []⟩) =
        Except.error () →
      getContextForSession ⟨[], fun _ => Except.ok []⟩ "s1"
          (some ⟨[⟨1, "a", "b", []⟩, ⟨2, "c", "d", []⟩], 100, 2, ∅, ∅⟩) 10 =
        (Except.error (),
         some ⟨[⟨1, "a", "b", []⟩, ⟨2, "c", "d", []⟩], 100, 2, ∅, ∅⟩, false))) :=
  c4_search_degrade_amended ⟨[], fun _ => Except.ok []⟩ "s1"
    ⟨[⟨1, "a", "b", []⟩, ⟨2, "c", "d", []⟩], 100, 2, ∅, ∅⟩ 10 ⟨2, "c", "d", []⟩
    (by norm_num) rfl

/-- Claim C5, counterexample: two entries, the second lacking its
timestamp.  The spec-modelled skip semantics keeps the valid entry;
the source returns the empty list, discarding the valid entry as well —
the `except` handler of `get_recent_messages` (`storage.py` line 559)
catches the `KeyError` of the loop and returns `[]` for the whole
fetch. -/
theorem c5_skip_counterexample :
    getRecentMessages [⟨some 1, some "a", some "b", []⟩, ⟨none, some "c", some "d", []⟩] 20 =
      [] ∧
    getRecentMessagesSpec [⟨some 1, some "a", some "b", []⟩, ⟨none, some "c", some "d", []⟩] 20 =
      [⟨1, "a", "b", []⟩] ∧
    getRecentMessages [⟨some 1, some "a", some "b", []⟩, ⟨none, some "c", some "d", []⟩] 20 ≠
      getRecentMessagesSpec [⟨some 1, some "a", some "b", []⟩, ⟨none, some "c", some "d", []⟩]
        20 :=
  ⟨rfl, rfl, by decide⟩

/-- Claim C5 (amended): one malformed entry (any required field missing)
makes the whole `get_recent_messages` fetch return the empty list — the
valid entries are discarded along with it, not kept; restoration then
treats the session as having no history (no exception propagates). -/
theorem c5_malformed_entry_discards_all (entries : List LedgerEntry) (limit : Nat)
    (h : ∃ e ∈ entries, entryToMsg e = none) :
    getRecentMessages entries limit = [] := by
  unfold getRecentMessages
  rw [collectMsgs_eq_none entries h]

/-- Claim C5, witness: the amended theorem at the concrete two-entry
fetch. -/
theorem c5_malformed_entry_discards_all_witness :
    (∃ e ∈ ([⟨some 1, some "a", some "b", []⟩, ⟨none, some "c", some "d", []⟩] :
        List LedgerEntry), entryToMsg e = none) ∧
    getRecentMessages [⟨some 1, some "a", some "b", []⟩, ⟨none, some "c", some "d", []⟩] 20 =
      [] :=
  ⟨⟨⟨none, some "c", some "d", []⟩, by decide, rfl⟩,
   c5_malformed_entry_discards_all _ 20
     ⟨⟨none, some "c", some "d", []⟩, by decide, rfl⟩⟩

/-- Claim C6, counterexample: a session with no Ledger history.  The
first restoration fetches and caches nothing (`if recent_messages:` is
false), so the second call fetches again — the claim that no second
fetch occurs is false for such sessions. -/
theorem c6_refetch_counterexample :
    (getOrRestore [] none).1 = none ∧ (getOrRestore [] none).2 = true ∧
    (getOrRestore [] (getOrRestore [] none).1).2 = true :=
  ⟨rfl, rfl, rfl⟩

/-- Claim C6 (amended): restoration is idempotent on hot state — a
second `get_or_restore` with no intervening `add_turn` returns exactly
the state the first call produced (same turn list, same token estimate,
no duplicated turns); it performs no second Ledger fetch exactly when
the first call produced a hot session, while a session whose restore
found nothing is re-fetched on every call. -/
theorem c6_restoration_idempotent_amended (entries : List LedgerEntry) (s0 : Option Session) :
    getOrRestore entries (getOrRestore entries s0).1 =
      ((getOrRestore entries s0).1, ((getOrRestore entries s0).1).isNone) := by
  cases s0 with
  | some sess => rfl
  | none =>
    unfold getOrRestore
    by_cases he : (getRecentMessages entries 20).isEmpty <;> simp [he]

/-- Claim C7 (code bug): `store_message` assigns uuid4 point ids
(`storage.py` line 460), while the exclusion filter compares each
retrieved id against `f"{session_id}_{timestamp}"` (`memory.py` line
338) — a shape no stored id ever takes, so the filter never fires.  At
this concrete input the search returns a fragment identical to the
most recent turn and it appears in the assembled context twice: as the
"[Earlier]" fragment and in the verbatim recent tail, contradicting the
claimed exclusion. -/
theorem c7_recent_fragment_not_excluded :
    (getContextForSession
        ⟨[], fun _ =>
          Except.ok [⟨"3fa85f64-5717-4562-b3fc-2c963f66afa6", 1, "latest", "resp2", 2, []⟩]⟩
        "s1" (some ⟨[⟨1, "first", "resp1", []⟩, ⟨2, "latest", "resp2", []⟩], 100, 2, ∅, ∅⟩)
        10).1 =
      Except.ok ("[Earlier] User: latest\n\n[Earlier] Assistant: resp2\n\nUser: first\n\n" ++
        "Assistant: resp1\n\nUser: latest\n\nAssistant: resp2") := by
  have h : ¬ ((100 : ℚ) ≤ 10) := by norm_num
  simp only [getContextForSession, getOrRestore, h, if_false]
  rfl

/-- Claim C8: a successful compaction produces one summary covering the
contiguous oldest-first half of the hot turns at that moment — its
bounds are the first and last timestamps of that batch and its count is
floor(n/2) — and the remaining hot state is exactly the suffix left by
the batch, in its original insertion order (batch ++ remainder is the
original sequence). -/
theorem c8_summary_covers_oldest_half (orc : Oracles) (sid : String) (sess : Session)
    (chat : String → Except Unit String) (txt sumId : String)
    (hsum : orc.summarizer = some chat)
    (hn : 5 ≤ sess.messages.length)
    (hchat : chat (summaryPrompt (transcript (sess.messages.take (sess.messages.length / 2)))) =
      Except.ok txt)
    (hst : orc.storeSummary = Except.ok sumId) :
    ∃ s2 sum b0 bl,
      maybeSummarizeSession orc sid (some sess) = (some s2, [sum]) ∧
      (sess.messages.take (sess.messages.length / 2)).head? = some b0 ∧
      (sess.messages.take (sess.messages.length / 2)).getLast? = some bl ∧
      sum.startTime = b0.timestamp ∧
      sum.endTime = bl.timestamp ∧
      sum.messageCount = sess.messages.length / 2 ∧
      s2.messages = sess.messages.drop (sess.messages.length / 2) ∧
      sess.messages.take (sess.messages.length / 2) ++ s2.messages = sess.messages := by
  obtain ⟨b0, bl, hh, hl, hms⟩ := maybeSummarize_ok orc sid sess chat txt sumId hsum hn hchat hst
  exact ⟨_, _, b0, bl, hms, hh, hl, rfl, rfl, rfl, rfl,
    List.take_append_drop (sess.messages.length / 2) sess.messages⟩

/-- Claim C8, witness: a successful compaction over a concrete
six-message session. -/
theorem c8_summary_covers_oldest_half_witness :
    ∃ s2 sum b0 bl,
      maybeSummarizeSession ⟨Except.ok "p", some (fun _ => Except.ok "the sum"), Except.ok "q"⟩
          "s8" (some ⟨[⟨1, "a", "b", []⟩, ⟨2, "a", "b", []⟩, ⟨3, "a", "b", []⟩,
            ⟨4, "a", "b", []⟩, ⟨5, "a", "b", []⟩, ⟨6, "a", "b", []⟩], 100, 6, ∅, ∅⟩) =
        (some s2, [sum]) ∧
      ((Session.messages ⟨[⟨1, "a", "b", []⟩, ⟨2, "a", "b", []⟩, ⟨3, "a", "b", []⟩,
          ⟨4, "a", "b", []⟩, ⟨5, "a", "b", []⟩, ⟨6, "a", "b", []⟩], 100, 6, ∅, ∅⟩).take
            ((Session.messages ⟨[⟨1, "a", "b", []⟩, ⟨2, "a", "b", []⟩, ⟨3, "a", "b", []⟩,
              ⟨4, "a", "b", []⟩, ⟨5, "a", "b", []⟩, ⟨6, "a", "b", []⟩], 100, 6, ∅,
              ∅⟩).length / 2)).head? = some b0 ∧
      ((Session.messages ⟨[⟨1, "a", "b", []⟩, ⟨2, "a", "b", []⟩, ⟨3, "a", "b", []⟩,
          ⟨4, "a", "b", []⟩, ⟨5, "a", "b", []⟩, ⟨6, "a", "b", []⟩], 100, 6, ∅, ∅⟩).take
            ((Session.messages ⟨[⟨1, "a", "b", []⟩, ⟨2, "a", "b", []⟩, ⟨3, "a", "b", []⟩,
              ⟨4, "a", "b", []⟩, ⟨5, "a", "b", []⟩, ⟨6, "a", "b", []⟩], 100, 6, ∅,
              ∅⟩).length / 2)).getLast? = some bl ∧
      sum.startTime = b0.timestamp ∧
      sum.endTime = bl.timestamp ∧
      sum.messageCount = (Session.messages ⟨[⟨1, "a", "b", []⟩, ⟨2, "a", "b", []⟩,
        ⟨3, "a", "b", []⟩, ⟨4, "a", "b", []⟩, ⟨5, "a", "b", []⟩, ⟨6, "a", "b", []⟩], 100, 6,
        ∅, ∅⟩).length / 2 ∧
      s2.messages = (Session.messages ⟨[⟨1, "a", "b", []⟩, ⟨2, "a", "b", []⟩,
        ⟨3, "a", "b", []⟩, ⟨4, "a", "b", []⟩, ⟨5, "a", "b", []⟩, ⟨6, "a", "b", []⟩], 100, 6,
        ∅, ∅⟩).drop ((Session.messages ⟨[⟨1, "a", "b", []⟩, ⟨2, "a", "b", []⟩,
        ⟨3, "a", "b", []⟩, ⟨4, "a", "b", []⟩, ⟨5, "a", "b", []⟩, ⟨6, "a", "b", []⟩], 100, 6,
        ∅, ∅⟩).length / 2) ∧
      (Session.messages ⟨[⟨1, "a", "b", []⟩, ⟨2, "a", "b", []⟩, ⟨3, "a", "b", []⟩,
        ⟨4, "a", "b", []⟩, ⟨5, "a", "b", []⟩, ⟨6, "a", "b", []⟩], 100, 6, ∅, ∅⟩).take
          ((Session.messages ⟨[⟨1, "a", "b", []⟩, ⟨2, "a", "b", []⟩, ⟨3, "a", "b", []⟩,
            ⟨4, "a", "b", []⟩, ⟨5, "a", "b", []⟩, ⟨6, "a", "b", []⟩], 100, 6, ∅,
            ∅⟩).length / 2) ++ s2.messages =
        Session.messages ⟨[⟨1, "a", "b", []⟩, ⟨2, "a", "b", []⟩, ⟨3, "a", "b", []⟩,
          ⟨4, "a", "b", []⟩, ⟨5, "a", "b", []⟩, ⟨6, "a", "b", []⟩], 100, 6, ∅, ∅⟩ :=
  c8_summary_covers_oldest_half ⟨Except.ok "p", some (fun _ => Except.ok "the sum"),
      Except.ok "q"⟩ "s8"
    ⟨[⟨1, "a", "b", []⟩, ⟨2, "a", "b", []⟩, ⟨3, "a", "b", []⟩, ⟨4, "a", "b", []⟩,
      ⟨5, "a", "b", []⟩, ⟨6, "a", "b", []⟩], 100, 6, ∅, ∅⟩
    (fun _ => Except.ok "the sum") "the sum" "q" rfl (by norm_num) rfl rfl

/-- Claim C10: a session restored from the Ledger always has empty
`urls` and `topics` aggregates, whatever URLs the fetched turns carry —
the restoration branch creates both as empty sets and never rebuilds
them from the fetched history. -/
theorem c10_restored_aggregates_empty (entries : List LedgerEntry) (s2 : Session) (b : Bool)
    (h : getOrRestore entries none = (some s2, b)) :
    s2.urls = ∅ ∧ s2.topics = ∅ := by
  unfold getOrRestore at h
  by_cases he : (getRecentMessages entries 20).isEmpty
  · simp [he] at h
  · simp [he] at h
    rw [← h.1]
    simp [restoreSession]

/-- Claim C10, witness: restoring from an entry that carries a URL still
yields empty aggregates. -/
theorem c10_restored_aggregates_empty_witness :
    (restoreSession [⟨1, "a", "b", ["http://x"]⟩]).urls = ∅ ∧
    (restoreSession [⟨1, "a", "b", ["http://x"]⟩]).topics = ∅ :=
  c10_restored_aggregates_empty [⟨some 1, some "a", some "b", ["http://x"]⟩]
    (restoreSession [⟨1, "a", "b", ["http://x"]⟩]) true rfl

end ConvMemory
